import Mathlib

/-!
Verification of the AP5030DN factory-image builder
(`build_factory_image.py`) against its natural-language specification.

The program is embedded shallowly: bytes are `Nat` values below 256 held in
`List Nat`, Python `int.to_bytes(4, "little")` becomes `intToBytesLE4`
(returning `none` where Python raises `OverflowError`), and the zlib CRC32 is
implemented bit by bit with the reflected polynomial `0xEDB88320`.  File I/O
and argument parsing for the failure-ordering claims are modelled by an
explicit event trace over an association-list file system.
-/

set_option maxRecDepth 10000

namespace FactoryImage

/-- Little-endian encoding of a value below `2^32` as four bytes. -/
def le32 (n : Nat) : List Nat :=
  [n % 256, n / 256 % 256, n / 65536 % 256, n / 16777216 % 256]

/-- Read a 32-bit little-endian value out of a byte list at offset `off`
(missing bytes read as zero). -/
def readLE32 (bs : List Nat) (off : Nat) : Nat :=
  bs.getD off 0 + 256 * bs.getD (off + 1) 0 + 65536 * bs.getD (off + 2) 0 +
    16777216 * bs.getD (off + 3) 0

/-- Python `int.to_bytes(4, byteorder="little")`: raises (here `none`) on a
negative value or one that does not fit in four bytes. -/
def intToBytesLE4 (n : Int) : Option (List Nat) :=
  if 0 ≤ n ∧ n < 4294967296 then some (le32 n.toNat) else none

/-- The `Metadata` dataclass of `build_factory_image.py` (fields are Python
ints, hence `Int`). -/
structure Metadata where
  crc32_checksum : Int
  primary_kernel_size : Int
  squashfs_size : Int
  uboot_size : Int
  backup_kernel_size : Int

/-- `Metadata.pack_metadata`: concatenation of the little-endian encodings of
`crc32_checksum`, `primary_kernel_size`, `squashfs_size`, `uboot_size`, three
reserved zero words, the constant 7, `backup_kernel_size + 40`, the constant
2 and the constant `0x570`; `none` when any `to_bytes` call raises. -/
def Metadata.pack_metadata (m : Metadata) : Option (List Nat) :=
  (intToBytesLE4 m.crc32_checksum).bind fun a =>
  (intToBytesLE4 m.primary_kernel_size).bind fun b =>
  (intToBytesLE4 m.squashfs_size).bind fun c =>
  (intToBytesLE4 m.uboot_size).bind fun d =>
  (intToBytesLE4 (m.backup_kernel_size + 40)).bind fun e =>
  some (a ++ b ++ c ++ d ++ List.replicate 12 0 ++ [7, 0, 0, 0] ++ e ++
    [2, 0, 0, 0] ++ [0x70, 0x05, 0, 0])

/-- One step of the reflected CRC32 bit loop (polynomial `0xEDB88320`). -/
def crc32_bit (c : Nat) : Nat :=
  if c % 2 = 1 then Nat.xor (c / 2) 0xEDB88320 else c / 2

/-- Iterate the CRC32 bit step. -/
def crc32_bits : Nat → Nat → Nat
  | 0, c => c
  | k + 1, c => crc32_bits k (crc32_bit c)

/-- Fold one byte into the running CRC32 state. -/
def crc32_update (c b : Nat) : Nat :=
  crc32_bits 8 (Nat.xor c b)

/-- Fold a byte list into the running CRC32 state. -/
def crc32_run (c : Nat) : List Nat → Nat
  | [] => c
  | b :: bs => crc32_run (crc32_update c b) bs

/-- `zlib.crc32`: initial state `0xFFFFFFFF`, reflected polynomial
`0xEDB88320`, final xor `0xFFFFFFFF`. -/
def crc32 (bs : List Nat) : Nat :=
  Nat.xor (crc32_run 0xFFFFFFFF bs) 0xFFFFFFFF

/-- `append_data(original, data, alignment)`: pad `data` with zero bytes so
that the combined length is a multiple of `alignment`, append, and return the
new buffer together with the padded data length. -/
def append_data (original data : List Nat) (alignment : Nat) :
    List Nat × Nat :=
  let padded := data ++
    List.replicate (alignment - (original.length + data.length) % alignment) 0
  (original ++ padded, padded.length)

/-- The four static blobs loaded at module import time. -/
structure StaticBlobs where
  header_data : List Nat
  uboot_data : List Nat
  metadata_header_data : List Nat
  metadata_footer_data : List Nat

/-- `load_user_data`, abstracted over the already-read file contents: when no
ramdisk is supplied the primary kernel bytes are reused. -/
def load_user_data (kernel_data rootfs_data : List Nat)
    (ramdisk_data : Option (List Nat)) : List Nat × List Nat × List Nat :=
  (kernel_data, rootfs_data,
    match ramdisk_data with
    | some d => d
    | none => kernel_data)

/-- The byte-building portion of `main`: start from the header blob, append
rootfs, kernel, uboot and ramdisk with 16-byte alignment, append the metadata
header template, compute the CRC32 of everything past offset 32, pack the
metadata block, and append the metadata footer template.  Returns `none` when
`pack_metadata` raises. -/
def buildImage (s : StaticBlobs)
    (kernel_data rootfs_data ramdisk_data : List Nat) : Option (List Nat) :=
  let alignment := 16
  let r1 := append_data s.header_data rootfs_data alignment
  let r2 := append_data r1.1 kernel_data alignment
  let r3 := append_data r2.1 s.uboot_data alignment
  let r4 := append_data r3.1 ramdisk_data alignment
  let final5 := r4.1 ++ s.metadata_header_data
  let crc := crc32 (final5.drop 32)
  (Metadata.pack_metadata
      ⟨(crc : Int), (r2.2 : Int), (r1.2 : Int), (r3.2 : Int), (r4.2 : Int)⟩).map
    fun md => final5 ++ md ++ s.metadata_footer_data

/-- Spec-side description (§4.1): a section padded with zero bytes so that
`pre + length` becomes a multiple of 16, where `pre` is the length of the
output accumulated so far. -/
def padTo16 (pre : Nat) (data : List Nat) : List Nat :=
  data ++ List.replicate (16 - (pre + data.length) % 16) 0

/-- Padded rootfs section (§3): the first variable section. -/
def sec1 (s : StaticBlobs) (rootfs_data : List Nat) : List Nat :=
  padTo16 s.header_data.length rootfs_data

/-- Running output length after the rootfs section. -/
def off1 (s : StaticBlobs) (rootfs_data : List Nat) : Nat :=
  s.header_data.length + (sec1 s rootfs_data).length

/-- Padded kernel section (§3): the second variable section. -/
def sec2 (s : StaticBlobs) (kernel_data rootfs_data : List Nat) : List Nat :=
  padTo16 (off1 s rootfs_data) kernel_data

/-- Running output length after the kernel section. -/
def off2 (s : StaticBlobs) (kernel_data rootfs_data : List Nat) : Nat :=
  off1 s rootfs_data + (sec2 s kernel_data rootfs_data).length

/-- Padded bootloader section (§3): the third variable section. -/
def sec3 (s : StaticBlobs) (kernel_data rootfs_data : List Nat) : List Nat :=
  padTo16 (off2 s kernel_data rootfs_data) s.uboot_data

/-- Running output length after the bootloader section. -/
def off3 (s : StaticBlobs) (kernel_data rootfs_data : List Nat) : Nat :=
  off2 s kernel_data rootfs_data + (sec3 s kernel_data rootfs_data).length

/-- Padded secondary-kernel section (§3): the fourth variable section. -/
def sec4 (s : StaticBlobs)
    (kernel_data rootfs_data ramdisk_data : List Nat) : List Nat :=
  padTo16 (off3 s kernel_data rootfs_data) ramdisk_data

/-- Running output length after the secondary-kernel section. -/
def off4 (s : StaticBlobs)
    (kernel_data rootfs_data ramdisk_data : List Nat) : Nat :=
  off3 s kernel_data rootfs_data +
    (sec4 s kernel_data rootfs_data ramdisk_data).length

/-- The image up to and including the metadata-header template: the region
the CRC32 is computed over (minus its first 32 bytes). -/
def bodyBytes (s : StaticBlobs)
    (kernel_data rootfs_data ramdisk_data : List Nat) : List Nat :=
  s.header_data ++ sec1 s rootfs_data ++ sec2 s kernel_data rootfs_data ++
    sec3 s kernel_data rootfs_data ++
    sec4 s kernel_data rootfs_data ramdisk_data ++ s.metadata_header_data

/-- Spec-side description (§3) of the metadata block, field by field. -/
def mdBytes (s : StaticBlobs)
    (kernel_data rootfs_data ramdisk_data : List Nat) : List Nat :=
  le32 (crc32 ((bodyBytes s kernel_data rootfs_data ramdisk_data).drop 32)) ++
    le32 (sec2 s kernel_data rootfs_data).length ++
    le32 (sec1 s rootfs_data).length ++
    le32 (sec3 s kernel_data rootfs_data).length ++
    List.replicate 12 0 ++ le32 7 ++
    le32 ((sec4 s kernel_data rootfs_data ramdisk_data).length + 40) ++
    le32 2 ++ le32 1392

/-- Spec-side description (§3) of the final image: flat concatenation
`header ++ rootfs ++ kernel ++ uboot ++ secondary kernel ++ metadata header
template ++ metadata block ++ metadata footer template`, with each variable
section padded per §4.1 and the metadata block written out field by field. -/
def imageSpec (s : StaticBlobs)
    (kernel_data rootfs_data ramdisk_data : List Nat) : List Nat :=
  bodyBytes s kernel_data rootfs_data ramdisk_data ++
    mdBytes s kernel_data rootfs_data ramdisk_data ++
    s.metadata_footer_data

/-- Byte-validity: every entry of the list is an actual byte value. -/
def isBytes (bs : List Nat) : Prop := ∀ b ∈ bs, b < 256

instance (bs : List Nat) : Decidable (isBytes bs) := by
  unfold isBytes
  infer_instance

/-- Byte-validity of all blobs that feed the CRC32 region. -/
def goodBlobs (s : StaticBlobs)
    (kernel_data rootfs_data ramdisk_data : List Nat) : Prop :=
  isBytes s.header_data ∧ isBytes s.uboot_data ∧
    isBytes s.metadata_header_data ∧ isBytes kernel_data ∧
    isBytes rootfs_data ∧ isBytes ramdisk_data

instance (s : StaticBlobs) (k r d : List Nat) :
    Decidable (goodBlobs s k r d) := by
  unfold goodBlobs
  infer_instance

/-- Size bounds under which every `to_bytes` call of `pack_metadata`
succeeds (each padded length fits four bytes). -/
def goodSizes (s : StaticBlobs)
    (kernel_data rootfs_data ramdisk_data : List Nat) : Prop :=
  rootfs_data.length + 16 < 4294967296 ∧
    kernel_data.length + 16 < 4294967296 ∧
    s.uboot_data.length + 16 < 4294967296 ∧
    ramdisk_data.length + 56 < 4294967296

instance (s : StaticBlobs) (k r d : List Nat) :
    Decidable (goodSizes s k r d) := by
  unfold goodSizes
  infer_instance

/-! ### Process model: file reads, argument parsing, output write

The script loads the four static blobs at module import time (before
`parse_args` runs), then parses arguments, then reads the caller-supplied
images, builds the image in memory and writes the output file once at the
end.  We model the file system as an association list and record each file
access as an event so that ordering and all-or-nothing claims can be stated.
-/

/-- The command line after `argparse` has collected the raw option values:
`output` is positional and always present, `-k`/`-r`/`--ramdisk` may each be
absent. -/
structure Args where
  output : String
  kernel : Option String
  rootfs : Option String
  ramdisk : Option String

/-- An observable file-system access. -/
inductive Event where
  | fileRead : String → Event
  | fileWrite : String → Event
deriving DecidableEq, Repr

/-- File system: paths mapped to byte contents. -/
def FS : Type := List (String × List Nat)

instance : DecidableEq FS := by
  unfold FS
  infer_instance

/-- Look a path up in the file system. -/
def FS.readF (fs : FS) (p : String) : Option (List Nat) :=
  List.lookup p fs

/-- Create or overwrite a file. -/
def FS.writeF (fs : FS) (p : String) (d : List Nat) : FS :=
  (p, d) :: fs

def headerPath : String := "static/header.bin"
def ubootPath : String := "static/uboot.bin"
def mdHeaderPath : String := "static/metadata_header.bin"
def mdFooterPath : String := "static/metadata_footer.bin"

/-- The four module-import-time reads, in source order. -/
def staticReads : List Event :=
  [Event.fileRead headerPath, Event.fileRead ubootPath,
    Event.fileRead mdHeaderPath, Event.fileRead mdFooterPath]

/-- `parse_args`: fails (argparse required-argument error) when `--kernel` or
`--rootfs` is absent, otherwise yields output path, kernel path, rootfs path
and the optional ramdisk path. -/
def parse_args (a : Args) :
    Option (String × String × String × Option String) :=
  match a.kernel, a.rootfs with
  | some k, some r => some (a.output, k, r, a.ramdisk)
  | _, _ => none

/-- Final phase of `main`: build the image in memory, then (only on success)
open the output path and write the whole buffer. -/
def finishRun (fs : FS) (out : String) (tr : List Event) (s : StaticBlobs)
    (kernel_data rootfs_data ramdisk_data : List Nat) :
    List Event × FS × Bool :=
  (buildImage s kernel_data rootfs_data ramdisk_data).elim (tr, fs, false)
    fun img => (tr ++ [Event.fileWrite out], fs.writeF out img, true)

/-- One run of the script: the four static blobs are read at import time, in
source order, before `parse_args`; then kernel, rootfs and (when supplied)
ramdisk are read; the output file is written once at the very end.  The
result is the event trace, the resulting file system, and whether the run
succeeded.  A failed `open` aborts the run with the file system unchanged. -/
def runProgram (fs : FS) (a : Args) : List Event × FS × Bool :=
  match fs.readF headerPath with
  | none => ([Event.fileRead headerPath], fs, false)
  | some header_data =>
  match fs.readF ubootPath with
  | none => ([Event.fileRead headerPath, Event.fileRead ubootPath], fs, false)
  | some uboot_data =>
  match fs.readF mdHeaderPath with
  | none => ([Event.fileRead headerPath, Event.fileRead ubootPath,
      Event.fileRead mdHeaderPath], fs, false)
  | some metadata_header_data =>
  match fs.readF mdFooterPath with
  | none => (staticReads, fs, false)
  | some metadata_footer_data =>
  match parse_args a with
  | none => (staticReads, fs, false)
  | some (out, kpath, rpath, rampath) =>
  match fs.readF kpath with
  | none => (staticReads ++ [Event.fileRead kpath], fs, false)
  | some kernel_data =>
  match fs.readF rpath with
  | none => (staticReads ++ [Event.fileRead kpath, Event.fileRead rpath],
      fs, false)
  | some rootfs_data =>
  match rampath with
  | some rp =>
    (match fs.readF rp with
     | none => (staticReads ++ [Event.fileRead kpath, Event.fileRead rpath,
         Event.fileRead rp], fs, false)
     | some ramdisk_data =>
       finishRun fs out
         (staticReads ++ [Event.fileRead kpath, Event.fileRead rpath,
           Event.fileRead rp])
         ⟨header_data, uboot_data, metadata_header_data, metadata_footer_data⟩
         kernel_data rootfs_data ramdisk_data)
  | none =>
    finishRun fs out
      (staticReads ++ [Event.fileRead kpath, Event.fileRead rpath])
      ⟨header_data, uboot_data, metadata_header_data, metadata_footer_data⟩
      kernel_data rootfs_data kernel_data

/-- The input paths a given invocation needs: the four static blobs always,
plus — when argument parsing succeeds — the kernel path, the rootfs path and
the ramdisk path when supplied. -/
def requiredPaths (a : Args) : List String :=
  [headerPath, ubootPath, mdHeaderPath, mdFooterPath] ++
    match parse_args a with
    | none => []
    | some (_, kpath, rpath, rampath) => [kpath, rpath] ++ rampath.toList

/-! ### Basic lemmas -/

theorem le32_length (n : Nat) : (le32 n).length = 4 := rfl

theorem padTo16_length (pre : Nat) (data : List Nat) :
    (padTo16 pre data).length =
      data.length + (16 - (pre + data.length) % 16) := by
  simp [padTo16]

theorem append_data_eq (O S : List Nat) :
    append_data O S 16 =
      (O ++ padTo16 O.length S, (padTo16 O.length S).length) := rfl

theorem crc32_run_append (A B : List Nat) (c : Nat) :
    crc32_run c (A ++ B) = crc32_run (crc32_run c A) B := by
  induction A generalizing c with
  | nil => rfl
  | cons a as ih =>
    rw [List.cons_append]
    show crc32_run (crc32_update c a) (as ++ B) =
      crc32_run (crc32_run (crc32_update c a) as) B
    exact ih _

theorem crc32_bit_lt (c : Nat) (h : c < 4294967296) :
    crc32_bit c < 4294967296 := by
  have h32 : (4294967296 : Nat) = 2 ^ 32 := by norm_num
  unfold crc32_bit
  split
  · rw [h32]
    exact Nat.xor_lt_two_pow (by omega) (by norm_num)
  · omega

theorem crc32_bits_lt (k c : Nat) (h : c < 4294967296) :
    crc32_bits k c < 4294967296 := by
  induction k generalizing c with
  | zero => exact h
  | succ k ih => exact ih _ (crc32_bit_lt c h)

theorem crc32_update_lt (c b : Nat) (hc : c < 4294967296) (hb : b < 256) :
    crc32_update c b < 4294967296 := by
  have h32 : (4294967296 : Nat) = 2 ^ 32 := by norm_num
  exact crc32_bits_lt 8 _ (by rw [h32]; exact Nat.xor_lt_two_pow (by omega) (by omega))

theorem crc32_run_lt (bs : List Nat) (c : Nat) (hc : c < 4294967296)
    (hb : isBytes bs) : crc32_run c bs < 4294967296 := by
  induction bs generalizing c with
  | nil => exact hc
  | cons b bs ih =>
    exact ih _ (crc32_update_lt c b hc (hb b (by simp)))
      (fun x hx => hb x (by simp [hx]))

theorem crc32_lt (bs : List Nat) (hb : isBytes bs) :
    crc32 bs < 4294967296 := by
  have h32 : (4294967296 : Nat) = 2 ^ 32 := by norm_num
  unfold crc32
  rw [h32]
  exact Nat.xor_lt_two_pow
    (by rw [← h32]; exact crc32_run_lt bs _ (by norm_num) hb) (by norm_num)

theorem isBytes_append {A B : List Nat} (hA : isBytes A) (hB : isBytes B) :
    isBytes (A ++ B) := by
  intro b hb
  rcases List.mem_append.mp hb with h | h
  · exact hA b h
  · exact hB b h

theorem isBytes_replicate_zero (n : Nat) : isBytes (List.replicate n 0) := by
  intro b hb
  rw [List.eq_of_mem_replicate hb]
  norm_num

theorem isBytes_drop {A : List Nat} (hA : isBytes A) (n : Nat) :
    isBytes (A.drop n) := fun b hb => hA b (List.drop_subset n A hb)

theorem isBytes_padTo16 {d : List Nat} (hd : isBytes d) (pre : Nat) :
    isBytes (padTo16 pre d) :=
  isBytes_append hd (isBytes_replicate_zero _)

/-! ### Reading 32-bit fields back out of a byte list -/

theorem readLE32_append (A B : List Nat) (k : Nat) :
    readLE32 (A ++ B) (A.length + k) = readLE32 B k := by
  unfold readLE32
  simp only [Nat.add_assoc]
  rw [List.getD_append_right _ _ _ _ (Nat.le_add_right _ _),
    List.getD_append_right _ _ _ _ (Nat.le_add_right _ _),
    List.getD_append_right _ _ _ _ (Nat.le_add_right _ _),
    List.getD_append_right _ _ _ _ (Nat.le_add_right _ _)]
  simp only [Nat.add_sub_cancel_left]

theorem readLE32_here (n : Nat) (rest : List Nat) (h : n < 4294967296) :
    readLE32 (le32 n ++ rest) 0 = n := by
  show readLE32 (n % 256 :: n / 256 % 256 :: n / 65536 % 256 ::
    n / 16777216 % 256 :: rest) 0 = n
  unfold readLE32
  simp only [List.getD_cons_zero, List.getD_cons_succ]
  omega

theorem readLE32_peel (x : Nat) (rest : List Nat) (k : Nat) :
    readLE32 (le32 x ++ rest) (4 + k) = readLE32 rest k := by
  have h := readLE32_append (le32 x) rest k
  rwa [le32_length] at h

/-! ### Packing and the image refinement -/

theorem intToBytesLE4_natCast (n : Nat) (h : n < 4294967296) :
    intToBytesLE4 (n : Int) = some (le32 n) := by
  unfold intToBytesLE4
  rw [if_pos ⟨Int.natCast_nonneg n, by exact_mod_cast h⟩]
  simp

theorem pack_metadata_natCast (a b c d e : Nat)
    (ha : a < 4294967296) (hb : b < 4294967296) (hc : c < 4294967296)
    (hd : d < 4294967296) (he : e + 40 < 4294967296) :
    Metadata.pack_metadata
        ⟨(a : Int), (b : Int), (c : Int), (d : Int), (e : Int)⟩ =
      some (le32 a ++ le32 b ++ le32 c ++ le32 d ++ List.replicate 12 0 ++
        le32 7 ++ le32 (e + 40) ++ le32 2 ++ le32 1392) := by
  have h40 : ((e : Int) + 40) = ((e + 40 : Nat) : Int) := by push_cast; ring
  have h7 : ([7, 0, 0, 0] : List Nat) = le32 7 := by decide
  have h2 : ([2, 0, 0, 0] : List Nat) = le32 2 := by decide
  have h1392 : ([0x70, 0x05, 0, 0] : List Nat) = le32 1392 := by decide
  unfold Metadata.pack_metadata
  simp only [h40, intToBytesLE4_natCast a ha, intToBytesLE4_natCast b hb,
    intToBytesLE4_natCast c hc, intToBytesLE4_natCast d hd,
    intToBytesLE4_natCast (e + 40) he, h7, h2, h1392, Option.some_bind]

theorem sec1_length_le (s : StaticBlobs) (r : List Nat) :
    (sec1 s r).length ≤ r.length + 16 := by
  rw [sec1, padTo16_length]
  omega

theorem sec2_length_le (s : StaticBlobs) (k r : List Nat) :
    (sec2 s k r).length ≤ k.length + 16 := by
  rw [sec2, padTo16_length]
  omega

theorem sec3_length_le (s : StaticBlobs) (k r : List Nat) :
    (sec3 s k r).length ≤ s.uboot_data.length + 16 := by
  rw [sec3, padTo16_length]
  omega

theorem sec4_length_le (s : StaticBlobs) (k r d : List Nat) :
    (sec4 s k r d).length ≤ d.length + 16 := by
  rw [sec4, padTo16_length]
  omega

theorem isBytes_bodyBytes_drop (s : StaticBlobs) (k r d : List Nat)
    (hB : goodBlobs s k r d) :
    isBytes ((bodyBytes s k r d).drop 32) := by
  obtain ⟨hbh, hbu, hbm, hbk, hbr, hbd⟩ := hB
  refine isBytes_drop ?_ 32
  unfold bodyBytes
  exact isBytes_append (isBytes_append (isBytes_append (isBytes_append
    (isBytes_append hbh (isBytes_padTo16 hbr _)) (isBytes_padTo16 hbk _))
    (isBytes_padTo16 hbu _)) (isBytes_padTo16 hbd _)) hbm

theorem buildImage_eq (s : StaticBlobs) (k r d : List Nat)
    (hB : goodBlobs s k r d) (hS : goodSizes s k r d) :
    buildImage s k r d = some (imageSpec s k r d) := by
  obtain ⟨hsr, hsk, hsu, hsd⟩ := hS
  have e1 : append_data s.header_data r 16 =
      (s.header_data ++ sec1 s r, (sec1 s r).length) := rfl
  have l1 : (s.header_data ++ sec1 s r).length = off1 s r := by
    simp only [List.length_append, off1]
  have e2 : append_data (s.header_data ++ sec1 s r) k 16 =
      (s.header_data ++ sec1 s r ++ sec2 s k r, (sec2 s k r).length) := by
    rw [append_data_eq, l1]
    rfl
  have l2 : (s.header_data ++ sec1 s r ++ sec2 s k r).length =
      off2 s k r := by
    simp only [List.length_append, off2, off1]
  have e3 : append_data (s.header_data ++ sec1 s r ++ sec2 s k r)
        s.uboot_data 16 =
      (s.header_data ++ sec1 s r ++ sec2 s k r ++ sec3 s k r,
        (sec3 s k r).length) := by
    rw [append_data_eq, l2]
    rfl
  have l3 : (s.header_data ++ sec1 s r ++ sec2 s k r ++
      sec3 s k r).length = off3 s k r := by
    simp only [List.length_append, off3, off2, off1]
  have e4 : append_data (s.header_data ++ sec1 s r ++ sec2 s k r ++
        sec3 s k r) d 16 =
      (s.header_data ++ sec1 s r ++ sec2 s k r ++ sec3 s k r ++
        sec4 s k r d, (sec4 s k r d).length) := by
    rw [append_data_eq, l3]
    rfl
  have hcrc : crc32 ((bodyBytes s k r d).drop 32) < 4294967296 :=
    crc32_lt _ (isBytes_bodyBytes_drop s k r d hB)
  have hpack := pack_metadata_natCast
    (crc32 ((bodyBytes s k r d).drop 32)) (sec2 s k r).length
    (sec1 s r).length (sec3 s k r).length (sec4 s k r d).length
    hcrc (by have := sec2_length_le s k r; omega)
    (by have := sec1_length_le s r; omega)
    (by have := sec3_length_le s k r; omega)
    (by have := sec4_length_le s k r d; omega)
  unfold buildImage
  simp only [e1, e2, e3, e4]
  rw [show s.header_data ++ sec1 s r ++ sec2 s k r ++ sec3 s k r ++
      sec4 s k r d ++ s.metadata_header_data = bodyBytes s k r d from rfl]
  rw [hpack]
  simp [imageSpec, mdBytes]

theorem intToBytesLE4_eq_of_bounds (n : Int) (h0 : 0 ≤ n)
    (h1 : n < 4294967296) : intToBytesLE4 n = some (le32 n.toNat) :=
  if_pos ⟨h0, h1⟩

/-- With every `to_bytes` argument in range, `pack_metadata` yields the nine
fields in order. -/
theorem pack_metadata_eq_of_bounds (m : Metadata)
    (h1 : 0 ≤ m.crc32_checksum) (h2 : m.crc32_checksum < 4294967296)
    (h3 : 0 ≤ m.primary_kernel_size) (h4 : m.primary_kernel_size < 4294967296)
    (h5 : 0 ≤ m.squashfs_size) (h6 : m.squashfs_size < 4294967296)
    (h7 : 0 ≤ m.uboot_size) (h8 : m.uboot_size < 4294967296)
    (h9 : 0 ≤ m.backup_kernel_size + 40)
    (h10 : m.backup_kernel_size + 40 < 4294967296) :
    m.pack_metadata = some (le32 m.crc32_checksum.toNat ++
      le32 m.primary_kernel_size.toNat ++ le32 m.squashfs_size.toNat ++
      le32 m.uboot_size.toNat ++ List.replicate 12 0 ++ le32 7 ++
      le32 (m.backup_kernel_size + 40).toNat ++ le32 2 ++ le32 1392) := by
  have e7 : ([7, 0, 0, 0] : List Nat) = le32 7 := by decide
  have e2 : ([2, 0, 0, 0] : List Nat) = le32 2 := by decide
  have e1392 : ([0x70, 0x05, 0, 0] : List Nat) = le32 1392 := by decide
  unfold Metadata.pack_metadata
  rw [intToBytesLE4_eq_of_bounds _ h1 h2, intToBytesLE4_eq_of_bounds _ h3 h4,
    intToBytesLE4_eq_of_bounds _ h5 h6, intToBytesLE4_eq_of_bounds _ h7 h8,
    intToBytesLE4_eq_of_bounds _ h9 h10]
  simp only [Option.some_bind, e7, e2, e1392]

theorem replicate12_as_le32 (rest : List Nat) :
    List.replicate 12 (0 : Nat) ++ rest =
      le32 0 ++ (le32 0 ++ (le32 0 ++ rest)) := rfl

theorem readLE32_peel12 (rest : List Nat) (k : Nat) :
    readLE32 (List.replicate 12 (0 : Nat) ++ rest) (12 + k) =
      readLE32 rest k := by
  have h := readLE32_append (List.replicate 12 (0 : Nat)) rest k
  rwa [List.length_replicate] at h

/-! ### Claim C4: the append formula -/

/-- C4: `append_data` with alignment 16 appends `S` followed by exactly
`P = 16 - ((len O + len S) mod 16)` zero bytes and returns the padded length
`len S + P`; when `(len O + len S) mod 16 = 0` it appends a full 16-byte
zero block rather than none. -/
theorem C4_append_formula (O S : List Nat) :
    append_data O S 16 =
      (O ++ S ++ List.replicate (16 - (O.length + S.length) % 16) 0,
        S.length + (16 - (O.length + S.length) % 16)) ∧
    ((O.length + S.length) % 16 = 0 →
      append_data O S 16 =
        (O ++ S ++ List.replicate 16 0, S.length + 16)) := by
  constructor
  · simp [append_data, List.append_assoc]
  · intro h
    simp [append_data, h, List.append_assoc]

theorem C4_append_formula_witness :
    append_data (List.replicate 16 0) [] 16 =
      (List.replicate 16 0 ++ [] ++ List.replicate 16 0,
        List.length ([] : List Nat) + 16) :=
  (C4_append_formula (List.replicate 16 0) []).2 (by decide)

/-! ### Claim C6: alignment invariants of the appender -/

theorem C6_counterexample :
    (append_data [0] [] 16).2 = 15 ∧
      ¬ (16 ∣ (append_data [0] [] 16).2) := by decide

/-- C6 (amended): when the current buffer length is a multiple of 16 — as is
always the case in this program — the returned padded length is a multiple
of 16; unconditionally, between 1 and 16 zero padding bytes are added and
the resulting buffer's total length is a multiple of 16. -/
theorem C6_align_invariants (O S : List Nat) :
    (16 ∣ O.length → 16 ∣ (append_data O S 16).2) ∧
    S.length + 1 ≤ (append_data O S 16).2 ∧
    (append_data O S 16).2 ≤ S.length + 16 ∧
    16 ∣ (append_data O S 16).1.length := by
  have h2 : (append_data O S 16).2 =
      S.length + (16 - (O.length + S.length) % 16) := by
    simp [append_data]
  have h1 : (append_data O S 16).1.length =
      O.length + (S.length + (16 - (O.length + S.length) % 16)) := by
    simp [append_data]
  refine ⟨fun hd => ?_, ?_, ?_, ?_⟩
  · rw [h2]
    omega
  · rw [h2]
    omega
  · rw [h2]
    omega
  · rw [h1]
    omega

theorem C6_align_invariants_witness :
    16 ∣ (append_data [] [5] 16).2 ∧ 16 ∣ (append_data [] [5] 16).1.length :=
  ⟨(C6_align_invariants [] [5]).1 (by decide),
    (C6_align_invariants [] [5]).2.2.2⟩

/-! ### Claim C10: partiality of pack_metadata -/

theorem C10_counterexample :
    (Metadata.pack_metadata ⟨0, 0, 0, 0, -10⟩).isSome = true := by decide

/-- C10 (amended): `pack_metadata` raises exactly when one of the first four
fields is negative or at least `2^32`, or when `backup_kernel_size + 40` is
negative or at least `2^32` (i.e. `backup_kernel_size < -40` or
`backup_kernel_size ≥ 2^32 - 40`); under the claim's precondition it always
succeeds. -/
theorem C10_pack_totality (m : Metadata) :
    (m.pack_metadata = none ↔
      m.crc32_checksum < 0 ∨ 4294967296 ≤ m.crc32_checksum ∨
      m.primary_kernel_size < 0 ∨ 4294967296 ≤ m.primary_kernel_size ∨
      m.squashfs_size < 0 ∨ 4294967296 ≤ m.squashfs_size ∨
      m.uboot_size < 0 ∨ 4294967296 ≤ m.uboot_size ∨
      m.backup_kernel_size + 40 < 0 ∨
        4294967296 ≤ m.backup_kernel_size + 40) ∧
    ((0 ≤ m.crc32_checksum ∧ m.crc32_checksum < 4294967296) →
      (0 ≤ m.primary_kernel_size ∧ m.primary_kernel_size < 4294967296) →
      (0 ≤ m.squashfs_size ∧ m.squashfs_size < 4294967296) →
      (0 ≤ m.uboot_size ∧ m.uboot_size < 4294967296) →
      (0 ≤ m.backup_kernel_size ∧
        m.backup_kernel_size ≤ 4294967296 - 41) →
      (m.pack_metadata).isSome = true) := by
  constructor
  · unfold Metadata.pack_metadata intToBytesLE4
    by_cases h1 : 0 ≤ m.crc32_checksum ∧ m.crc32_checksum < 4294967296 <;>
      by_cases h2 : 0 ≤ m.primary_kernel_size ∧
        m.primary_kernel_size < 4294967296 <;>
      by_cases h3 : 0 ≤ m.squashfs_size ∧ m.squashfs_size < 4294967296 <;>
      by_cases h4 : 0 ≤ m.uboot_size ∧ m.uboot_size < 4294967296 <;>
      by_cases h5 : 0 ≤ m.backup_kernel_size + 40 ∧
        m.backup_kernel_size + 40 < 4294967296 <;>
      simp [h1, h2, h3, h4, h5] <;> omega
  · intro p1 p2 p3 p4 p5
    rw [pack_metadata_eq_of_bounds m p1.1 p1.2 p2.1 p2.2 p3.1 p3.2 p4.1 p4.2
      (by omega) (by omega)]
    rfl

theorem C10_pack_totality_witness :
    (Metadata.pack_metadata ⟨0, 1, 2, 3, 4⟩).isSome = true :=
  (C10_pack_totality ⟨0, 1, 2, 3, 4⟩).2 (by decide) (by decide) (by decide)
    (by decide) (by decide)

/-! ### Claim C1: metadata serialization layout -/

theorem C1_counterexample :
    ((Metadata.pack_metadata ⟨1, 2, 3, 4, 5⟩).getD []).length = 44 ∧
      ¬ ((Metadata.pack_metadata ⟨1, 2, 3, 4, 5⟩).getD []).length = 32 := by
  decide

/-- C1 (amended): for every in-range metadata record, `pack_metadata`
serializes the nine fields of §3 in order as little-endian 32-bit integers
with no padding between fields, and the record is exactly 44 bytes long
(eleven 32-bit words: the three reserved fields occupy three words). -/
theorem C1_pack_layout (m : Metadata)
    (h1 : 0 ≤ m.crc32_checksum) (h2 : m.crc32_checksum < 4294967296)
    (h3 : 0 ≤ m.primary_kernel_size) (h4 : m.primary_kernel_size < 4294967296)
    (h5 : 0 ≤ m.squashfs_size) (h6 : m.squashfs_size < 4294967296)
    (h7 : 0 ≤ m.uboot_size) (h8 : m.uboot_size < 4294967296)
    (h9 : 0 ≤ m.backup_kernel_size + 40)
    (h10 : m.backup_kernel_size + 40 < 4294967296) :
    ∃ bs, m.pack_metadata = some bs ∧ bs.length = 44 ∧
      readLE32 bs 0 = m.crc32_checksum.toNat ∧
      readLE32 bs 4 = m.primary_kernel_size.toNat ∧
      readLE32 bs 8 = m.squashfs_size.toNat ∧
      readLE32 bs 12 = m.uboot_size.toNat ∧
      readLE32 bs 16 = 0 ∧ readLE32 bs 20 = 0 ∧ readLE32 bs 24 = 0 ∧
      readLE32 bs 28 = 7 ∧
      readLE32 bs 32 = (m.backup_kernel_size + 40).toNat ∧
      readLE32 bs 36 = 2 ∧ readLE32 bs 40 = 1392 := by
  refine ⟨_, pack_metadata_eq_of_bounds m h1 h2 h3 h4 h5 h6 h7 h8 h9 h10, ?_⟩
  have hassoc : le32 m.crc32_checksum.toNat ++
      le32 m.primary_kernel_size.toNat ++ le32 m.squashfs_size.toNat ++
      le32 m.uboot_size.toNat ++ List.replicate 12 0 ++ le32 7 ++
      le32 (m.backup_kernel_size + 40).toNat ++ le32 2 ++ le32 1392 =
      le32 m.crc32_checksum.toNat ++ (le32 m.primary_kernel_size.toNat ++
      (le32 m.squashfs_size.toNat ++ (le32 m.uboot_size.toNat ++
      (List.replicate 12 0 ++ (le32 7 ++
      (le32 (m.backup_kernel_size + 40).toNat ++ (le32 2 ++
      le32 1392))))))) := by
    simp [List.append_assoc]
  rw [hassoc]
  refine ⟨?_, ?_, ?_, ?_, ?_, ?_, ?_, ?_, ?_, ?_, ?_, ?_⟩
  · simp [List.length_append, le32_length]
  · exact readLE32_here _ _ (by omega)
  · rw [show (4 : Nat) = 4 + 0 from by norm_num, readLE32_peel]
    exact readLE32_here _ _ (by omega)
  · rw [show (8 : Nat) = 4 + (4 + 0) from by norm_num, readLE32_peel,
      readLE32_peel]
    exact readLE32_here _ _ (by omega)
  · rw [show (12 : Nat) = 4 + (4 + (4 + 0)) from by norm_num, readLE32_peel,
      readLE32_peel, readLE32_peel]
    exact readLE32_here _ _ (by omega)
  · rw [show (16 : Nat) = 4 + (4 + (4 + (4 + 0))) from by norm_num,
      readLE32_peel, readLE32_peel, readLE32_peel, readLE32_peel,
      replicate12_as_le32]
    exact readLE32_here _ _ (by norm_num)
  · rw [show (20 : Nat) = 4 + (4 + (4 + (4 + (4 + 0)))) from by norm_num,
      readLE32_peel, readLE32_peel, readLE32_peel, readLE32_peel,
      replicate12_as_le32, readLE32_peel]
    exact readLE32_here _ _ (by norm_num)
  · rw [show (24 : Nat) = 4 + (4 + (4 + (4 + (4 + (4 + 0))))) from
      by norm_num, readLE32_peel, readLE32_peel, readLE32_peel,
      readLE32_peel, replicate12_as_le32, readLE32_peel, readLE32_peel]
    exact readLE32_here _ _ (by norm_num)
  · rw [show (28 : Nat) = 4 + (4 + (4 + (4 + (12 + 0)))) from by norm_num,
      readLE32_peel, readLE32_peel, readLE32_peel, readLE32_peel,
      readLE32_peel12]
    exact readLE32_here _ _ (by norm_num)
  · rw [show (32 : Nat) = 4 + (4 + (4 + (4 + (12 + (4 + 0))))) from
      by norm_num, readLE32_peel, readLE32_peel, readLE32_peel,
      readLE32_peel, readLE32_peel12, readLE32_peel]
    exact readLE32_here _ _ (by omega)
  · rw [show (36 : Nat) = 4 + (4 + (4 + (4 + (12 + (4 + (4 + 0)))))) from
      by norm_num, readLE32_peel, readLE32_peel, readLE32_peel,
      readLE32_peel, readLE32_peel12, readLE32_peel, readLE32_peel]
    exact readLE32_here _ _ (by norm_num)
  · rw [show (40 : Nat) = 4 + (4 + (4 + (4 + (12 + (4 + (4 + (4 + 0)))))))
      from by norm_num, readLE32_peel, readLE32_peel, readLE32_peel,
      readLE32_peel, readLE32_peel12, readLE32_peel, readLE32_peel,
      readLE32_peel]
    exact readLE32_here _ _ (by norm_num)

theorem C1_pack_layout_witness :
    ((Metadata.pack_metadata ⟨10, 20, 30, 40, 50⟩).getD []).length = 44 ∧
    readLE32 ((Metadata.pack_metadata ⟨10, 20, 30, 40, 50⟩).getD []) 8 =
      (30 : Int).toNat ∧
    readLE32 ((Metadata.pack_metadata ⟨10, 20, 30, 40, 50⟩).getD []) 32 =
      ((50 : Int) + 40).toNat := by
  obtain ⟨bs, hbs, hlen, h0, h4, h8, h12, h16, h20, h24, h28, h32, h36,
    h40⟩ :=
    C1_pack_layout ⟨10, 20, 30, 40, 50⟩ (by decide) (by decide) (by decide)
      (by decide) (by decide) (by decide) (by decide) (by decide) (by decide)
      (by decide)
  rw [hbs]
  exact ⟨hlen, h8, h32⟩

/-! ### Image-level geometry lemmas -/

theorem bodyBytes_length (s : StaticBlobs) (k r d : List Nat) :
    (bodyBytes s k r d).length = s.header_data.length +
      (sec1 s r).length + (sec2 s k r).length + (sec3 s k r).length +
      (sec4 s k r d).length + s.metadata_header_data.length := by
  simp only [bodyBytes, List.length_append]

theorem imageSpec_rightassoc (s : StaticBlobs) (k r d : List Nat) :
    imageSpec s k r d = s.header_data ++ (sec1 s r ++ (sec2 s k r ++
      (sec3 s k r ++ (sec4 s k r d ++ (s.metadata_header_data ++
        (mdBytes s k r d ++ s.metadata_footer_data)))))) := by
  simp [imageSpec, bodyBytes, List.append_assoc]

theorem bodyBytes_drop_32 (s : StaticBlobs) (k r d : List Nat)
    (hH : s.header_data.length = 32) :
    (bodyBytes s k r d).drop 32 = sec1 s r ++ (sec2 s k r ++
      (sec3 s k r ++ (sec4 s k r d ++ s.metadata_header_data))) := by
  rw [← hH, show bodyBytes s k r d = s.header_data ++ (sec1 s r ++
    (sec2 s k r ++ (sec3 s k r ++ (sec4 s k r d ++
      s.metadata_header_data)))) from by simp [bodyBytes, List.append_assoc]]
  exact List.drop_left _ _

theorem imageSpec_drop_32 (s : StaticBlobs) (k r d : List Nat)
    (hH : s.header_data.length = 32) :
    (imageSpec s k r d).drop 32 = sec1 s r ++ (sec2 s k r ++
      (sec3 s k r ++ (sec4 s k r d ++ (s.metadata_header_data ++
        (mdBytes s k r d ++ s.metadata_footer_data))))) := by
  rw [← hH, imageSpec_rightassoc]
  exact List.drop_left _ _

theorem imageSpec_take_body (s : StaticBlobs) (k r d : List Nat) :
    (imageSpec s k r d).take ((bodyBytes s k r d).length) =
      bodyBytes s k r d := by
  rw [imageSpec, List.append_assoc]
  exact List.take_left _ _

theorem imageSpec_read_crc (s : StaticBlobs) (k r d : List Nat)
    (hB : goodBlobs s k r d) :
    readLE32 (imageSpec s k r d) ((bodyBytes s k r d).length) =
      crc32 ((bodyBytes s k r d).drop 32) := by
  conv_lhs => rw [imageSpec, List.append_assoc, mdBytes, List.append_assoc,
    List.append_assoc, List.append_assoc, List.append_assoc,
    List.append_assoc, List.append_assoc, List.append_assoc,
    List.append_assoc]
  rw [show (bodyBytes s k r d).length = (bodyBytes s k r d).length + 0 from
    by omega]
  rw [readLE32_append]
  exact readLE32_here _ _ (crc32_lt _ (isBytes_bodyBytes_drop s k r d hB))

theorem imageSpec_read_squashfs (s : StaticBlobs) (k r d : List Nat)
    (hr : r.length + 16 < 4294967296) :
    readLE32 (imageSpec s k r d) ((bodyBytes s k r d).length + 8) =
      (sec1 s r).length := by
  conv_lhs => rw [imageSpec, List.append_assoc, mdBytes, List.append_assoc,
    List.append_assoc, List.append_assoc, List.append_assoc,
    List.append_assoc, List.append_assoc, List.append_assoc,
    List.append_assoc]
  rw [show (bodyBytes s k r d).length + 8 =
    (bodyBytes s k r d).length + (4 + (4 + 0)) from by omega]
  rw [readLE32_append, readLE32_peel, readLE32_peel]
  exact readLE32_here _ _ (by have := sec1_length_le s r; omega)

/-! ### Claim C5: the output image layout -/

/-- C5: on a successful run the output bytes are exactly
`header ++ padded rootfs ++ padded kernel ++ padded uboot ++ padded
secondary kernel ++ metadata-header template ++ metadata block ++
metadata-footer template`, and without `--ramdisk` the secondary kernel's
raw bytes are the primary kernel's bytes. -/
theorem C5_image_concat (s : StaticBlobs) (k r d : List Nat)
    (hB : goodBlobs s k r d) (hS : goodSizes s k r d) :
    buildImage s k r d =
      some (s.header_data ++ sec1 s r ++ sec2 s k r ++ sec3 s k r ++
        sec4 s k r d ++ s.metadata_header_data ++
        mdBytes s k r d ++ s.metadata_footer_data) ∧
    load_user_data k r none = (k, r, k) := by
  refine ⟨?_, rfl⟩
  rw [buildImage_eq s k r d hB hS]
  rfl

theorem C5_image_concat_witness :
    buildImage ⟨List.replicate 32 0, [6], [1], [2]⟩ [3] [4] [5] =
      some (List.replicate 32 0 ++ sec1 ⟨List.replicate 32 0, [6], [1], [2]⟩ [4] ++
        sec2 ⟨List.replicate 32 0, [6], [1], [2]⟩ [3] [4] ++
        sec3 ⟨List.replicate 32 0, [6], [1], [2]⟩ [3] [4] ++
        sec4 ⟨List.replicate 32 0, [6], [1], [2]⟩ [3] [4] [5] ++ [1] ++
        mdBytes ⟨List.replicate 32 0, [6], [1], [2]⟩ [3] [4] [5] ++ [2]) ∧
    load_user_data [3] [4] none = ([3], [4], [3]) :=
  C5_image_concat ⟨List.replicate 32 0, [6], [1], [2]⟩ [3] [4] [5]
    (by decide) (by decide)

/-! ### Claim C3: the checksum is taken after the template is appended -/

/-- C3: the checksum stored in the metadata block equals the zlib CRC32 of
the accumulated buffer from offset 32 to its end at the point immediately
after the metadata-header template has been appended — i.e. it covers the
four padded sections plus the template, and excludes the 32-byte header, the
metadata block and the footer. -/
theorem C3_checksum_point (s : StaticBlobs) (k r d : List Nat)
    (hB : goodBlobs s k r d) (hS : goodSizes s k r d)
    (hH : s.header_data.length = 32) :
    ∃ img, buildImage s k r d = some img ∧
      readLE32 img (32 + (sec1 s r).length + (sec2 s k r).length +
        (sec3 s k r).length + (sec4 s k r d).length +
        s.metadata_header_data.length) =
      crc32 ((img.take (32 + (sec1 s r).length + (sec2 s k r).length +
        (sec3 s k r).length + (sec4 s k r d).length +
        s.metadata_header_data.length)).drop 32) := by
  refine ⟨_, buildImage_eq s k r d hB hS, ?_⟩
  have hoff : 32 + (sec1 s r).length + (sec2 s k r).length +
      (sec3 s k r).length + (sec4 s k r d).length +
      s.metadata_header_data.length = (bodyBytes s k r d).length := by
    rw [bodyBytes_length, hH]
  rw [hoff, imageSpec_read_crc s k r d hB, imageSpec_take_body]

theorem C3_checksum_point_witness :
    readLE32
      ((buildImage ⟨List.replicate 32 0, [6], [1], [2]⟩ [3] [4] [5]).getD [])
      (32 + (sec1 ⟨List.replicate 32 0, [6], [1], [2]⟩ [4]).length +
        (sec2 ⟨List.replicate 32 0, [6], [1], [2]⟩ [3] [4]).length +
        (sec3 ⟨List.replicate 32 0, [6], [1], [2]⟩ [3] [4]).length +
        (sec4 ⟨List.replicate 32 0, [6], [1], [2]⟩ [3] [4] [5]).length +
        ([1] : List Nat).length) =
      crc32 ((((buildImage ⟨List.replicate 32 0, [6], [1], [2]⟩ [3] [4]
          [5]).getD []).take
        (32 + (sec1 ⟨List.replicate 32 0, [6], [1], [2]⟩ [4]).length +
        (sec2 ⟨List.replicate 32 0, [6], [1], [2]⟩ [3] [4]).length +
        (sec3 ⟨List.replicate 32 0, [6], [1], [2]⟩ [3] [4]).length +
        (sec4 ⟨List.replicate 32 0, [6], [1], [2]⟩ [3] [4] [5]).length +
        ([1] : List Nat).length)).drop 32) := by
  obtain ⟨img, hbi, hread⟩ :=
    C3_checksum_point ⟨List.replicate 32 0, [6], [1], [2]⟩ [3] [4] [5]
      (by decide) (by decide) (by decide)
  rw [hbi]
  exact hread

/-! ### Claim C7: squashfs_size doubles as the kernel-section offset -/

/-- C7: with a 32-byte header, the recorded `squashfs_size` equals the
padded rootfs length, and equals the payload offset (from right after the
header) where the kernel section's bytes begin. -/
theorem C7_squashfs_offset (s : StaticBlobs) (k r d : List Nat)
    (hB : goodBlobs s k r d) (hS : goodSizes s k r d)
    (hH : s.header_data.length = 32) :
    ∃ img, buildImage s k r d = some img ∧
      readLE32 img (32 + (sec1 s r).length + (sec2 s k r).length +
        (sec3 s k r).length + (sec4 s k r d).length +
        s.metadata_header_data.length + 8) = (sec1 s r).length ∧
      (sec1 s r).length = r.length + (16 - (32 + r.length) % 16) ∧
      ((img.drop 32).drop (sec1 s r).length).take k.length = k := by
  obtain ⟨hsr, hsk, hsu, hsd⟩ := hS
  refine ⟨_, buildImage_eq s k r d hB ⟨hsr, hsk, hsu, hsd⟩, ?_, ?_, ?_⟩
  · have hoff : 32 + (sec1 s r).length + (sec2 s k r).length +
        (sec3 s k r).length + (sec4 s k r d).length +
        s.metadata_header_data.length + 8 =
        (bodyBytes s k r d).length + 8 := by
      rw [bodyBytes_length, hH]
    rw [hoff]
    exact imageSpec_read_squashfs s k r d hsr
  · rw [sec1, padTo16_length, hH]
  · rw [imageSpec_drop_32 s k r d hH, List.drop_left]
    rw [show sec2 s k r ++ (sec3 s k r ++ (sec4 s k r d ++
        (s.metadata_header_data ++ (mdBytes s k r d ++
          s.metadata_footer_data)))) =
        k ++ (List.replicate (16 - (off1 s r + k.length) % 16) 0 ++
        (sec3 s k r ++ (sec4 s k r d ++ (s.metadata_header_data ++
          (mdBytes s k r d ++ s.metadata_footer_data))))) from by
      rw [sec2, padTo16, List.append_assoc]]
    exact List.take_left _ _

theorem C7_squashfs_offset_witness :
    readLE32
      ((buildImage ⟨List.replicate 32 0, [6], [1], [2]⟩ [3] [4] [5]).getD [])
      (32 + (sec1 ⟨List.replicate 32 0, [6], [1], [2]⟩ [4]).length +
        (sec2 ⟨List.replicate 32 0, [6], [1], [2]⟩ [3] [4]).length +
        (sec3 ⟨List.replicate 32 0, [6], [1], [2]⟩ [3] [4]).length +
        (sec4 ⟨List.replicate 32 0, [6], [1], [2]⟩ [3] [4] [5]).length +
        ([1] : List Nat).length + 8) =
      (sec1 ⟨List.replicate 32 0, [6], [1], [2]⟩ [4]).length ∧
    (sec1 ⟨List.replicate 32 0, [6], [1], [2]⟩ [4]).length =
      ([4] : List Nat).length + (16 - (32 + ([4] : List Nat).length) % 16) ∧
    ((((buildImage ⟨List.replicate 32 0, [6], [1], [2]⟩ [3] [4]
        [5]).getD []).drop 32).drop
      (sec1 ⟨List.replicate 32 0, [6], [1], [2]⟩ [4]).length).take
        ([3] : List Nat).length = [3] := by
  obtain ⟨img, hbi, hread, hlen, hker⟩ :=
    C7_squashfs_offset ⟨List.replicate 32 0, [6], [1], [2]⟩ [3] [4] [5]
      (by decide) (by decide) (by decide)
  rw [hbi]
  exact ⟨hread, hlen, hker⟩

/-! ### Claim C2: what byte range the checksum covers -/

theorem crc32_state_32zeros :
    crc32_run 0xFFFFFFFF (List.replicate 32 0) = 0xe6f5aa52 := by decide

theorem crc32_64zeros : crc32 (List.replicate 64 0) = 0x758d6336 := by
  have h : List.replicate 64 (0 : Nat) =
      List.replicate 32 0 ++ List.replicate 32 0 := by decide
  rw [crc32, h, crc32_run_append, crc32_state_32zeros]
  decide

theorem crc32_64zeros_one :
    crc32 (List.replicate 64 0 ++ [1]) = 0x6acac7e1 := by
  have h : List.replicate 64 (0 : Nat) ++ [1] =
      List.replicate 32 0 ++ (List.replicate 32 0 ++ [1]) := by decide
  rw [crc32, h, crc32_run_append, crc32_state_32zeros]
  decide

theorem C2_counterexample :
    (buildImage ⟨List.replicate 32 0, [], [1], []⟩ [] [] []).isSome = true ∧
    (((buildImage ⟨List.replicate 32 0, [], [1], []⟩ [] [] []).getD
      []).drop 32).take 64 = List.replicate 64 0 ∧
    readLE32 ((buildImage ⟨List.replicate 32 0, [], [1], []⟩ [] [] []).getD
      []) 97 ≠ crc32 (List.replicate 64 0) := by
  have hb := buildImage_eq ⟨List.replicate 32 0, [], [1], []⟩ [] [] []
    (by decide) (by decide)
  rw [hb]
  refine ⟨rfl, by decide, ?_⟩
  show readLE32 (imageSpec ⟨List.replicate 32 0, [], [1], []⟩ [] [] []) 97 ≠
    crc32 (List.replicate 64 0)
  rw [show (97 : Nat) =
    (bodyBytes ⟨List.replicate 32 0, [], [1], []⟩ [] [] []).length from
    by decide]
  rw [imageSpec_read_crc _ _ _ _ (by decide)]
  rw [show (bodyBytes ⟨List.replicate 32 0, [], [1], []⟩ [] [] []).drop 32 =
    List.replicate 64 0 ++ [1] from by decide]
  rw [crc32_64zeros, crc32_64zeros_one]
  decide

/-- C2 (amended): the checksum covers the image bytes from offset 32 to the
end of the metadata-header template — the four padded sections plus the
template — not the sections alone. -/
theorem C2_crc_range (s : StaticBlobs) (k r d : List Nat)
    (hB : goodBlobs s k r d) (hS : goodSizes s k r d)
    (hH : s.header_data.length = 32) :
    ∃ img, buildImage s k r d = some img ∧
      readLE32 img (32 + (sec1 s r).length + (sec2 s k r).length +
        (sec3 s k r).length + (sec4 s k r d).length +
        s.metadata_header_data.length) =
      crc32 (((img.drop 32).take ((sec1 s r).length +
        (sec2 s k r).length + (sec3 s k r).length +
        (sec4 s k r d).length)) ++ s.metadata_header_data) := by
  refine ⟨_, buildImage_eq s k r d hB hS, ?_⟩
  have hoff : 32 + (sec1 s r).length + (sec2 s k r).length +
      (sec3 s k r).length + (sec4 s k r d).length +
      s.metadata_header_data.length = (bodyBytes s k r d).length := by
    rw [bodyBytes_length, hH]
  rw [hoff, imageSpec_read_crc s k r d hB]
  rw [imageSpec_drop_32 s k r d hH]
  rw [show sec1 s r ++ (sec2 s k r ++ (sec3 s k r ++ (sec4 s k r d ++
      (s.metadata_header_data ++ (mdBytes s k r d ++
        s.metadata_footer_data))))) =
      (sec1 s r ++ sec2 s k r ++ sec3 s k r ++ sec4 s k r d) ++
      (s.metadata_header_data ++ (mdBytes s k r d ++
        s.metadata_footer_data)) from by simp [List.append_assoc]]
  rw [show (sec1 s r).length + (sec2 s k r).length + (sec3 s k r).length +
      (sec4 s k r d).length =
      (sec1 s r ++ sec2 s k r ++ sec3 s k r ++ sec4 s k r d).length from by
    simp [List.length_append]
    omega]
  rw [List.take_left]
  rw [bodyBytes_drop_32 s k r d hH]
  simp [List.append_assoc]

theorem C2_crc_range_witness :
    readLE32
      ((buildImage ⟨List.replicate 32 0, [6], [1], [2]⟩ [3] [4] [5]).getD [])
      (32 + (sec1 ⟨List.replicate 32 0, [6], [1], [2]⟩ [4]).length +
        (sec2 ⟨List.replicate 32 0, [6], [1], [2]⟩ [3] [4]).length +
        (sec3 ⟨List.replicate 32 0, [6], [1], [2]⟩ [3] [4]).length +
        (sec4 ⟨List.replicate 32 0, [6], [1], [2]⟩ [3] [4] [5]).length +
        ([1] : List Nat).length) =
      crc32 (((((buildImage ⟨List.replicate 32 0, [6], [1], [2]⟩ [3] [4]
          [5]).getD []).drop 32).take
        ((sec1 ⟨List.replicate 32 0, [6], [1], [2]⟩ [4]).length +
        (sec2 ⟨List.replicate 32 0, [6], [1], [2]⟩ [3] [4]).length +
        (sec3 ⟨List.replicate 32 0, [6], [1], [2]⟩ [3] [4]).length +
        (sec4 ⟨List.replicate 32 0, [6], [1], [2]⟩ [3] [4] [5]).length)) ++
        ([1] : List Nat)) := by
  obtain ⟨img, hbi, hread⟩ :=
    C2_crc_range ⟨List.replicate 32 0, [6], [1], [2]⟩ [3] [4] [5]
      (by decide) (by decide) (by decide)
  rw [hbi]
  exact hread

/-! ### Claim C8: all-or-nothing failure semantics -/

theorem write_mem_last (tr : List Event) (out p : String)
    (htr : ∀ q, Event.fileWrite q ∉ tr)
    (hmem : Event.fileWrite p ∈ tr ++ [Event.fileWrite out]) :
    (tr ++ [Event.fileWrite out]).getLast? = some (Event.fileWrite p) := by
  rw [List.getLast?_concat]
  rcases List.mem_append.mp hmem with h | h
  · exact absurd h (htr p)
  · simp at h
    rw [h]

/-- C8: a run that fails leaves the file system unchanged and never writes;
a run with any required input missing fails; and in every run the output
write, when present, is the final event of the trace — the output path is
opened for writing only after all input reads. -/
theorem C8_failure_atomicity (fs : FS) (a : Args) :
    ((runProgram fs a).2.2 = false →
      (runProgram fs a).2.1 = fs ∧
      ∀ p, Event.fileWrite p ∉ (runProgram fs a).1) ∧
    ((∃ p ∈ requiredPaths a, fs.readF p = none) →
      (runProgram fs a).2.2 = false) ∧
    (∀ p, Event.fileWrite p ∈ (runProgram fs a).1 →
      (runProgram fs a).1.getLast? = some (Event.fileWrite p)) := by
  cases h1 : fs.readF headerPath with
  | none =>
    have hrun : runProgram fs a = ([Event.fileRead headerPath], fs, false) :=
      by simp [runProgram, h1]
    rw [hrun]
    exact ⟨fun _ => ⟨rfl, fun p => by simp⟩, fun _ => rfl,
      fun p hq => by simp at hq⟩
  | some hd =>
  cases h2 : fs.readF ubootPath with
  | none =>
    have hrun : runProgram fs a =
        ([Event.fileRead headerPath, Event.fileRead ubootPath], fs, false) :=
      by simp [runProgram, h1, h2]
    rw [hrun]
    exact ⟨fun _ => ⟨rfl, fun p => by simp⟩, fun _ => rfl,
      fun p hq => by simp at hq⟩
  | some ud =>
  cases h3 : fs.readF mdHeaderPath with
  | none =>
    have hrun : runProgram fs a = ([Event.fileRead headerPath,
        Event.fileRead ubootPath, Event.fileRead mdHeaderPath], fs, false) :=
      by simp [runProgram, h1, h2, h3]
    rw [hrun]
    exact ⟨fun _ => ⟨rfl, fun p => by simp⟩, fun _ => rfl,
      fun p hq => by simp at hq⟩
  | some mh =>
  cases h4 : fs.readF mdFooterPath with
  | none =>
    have hrun : runProgram fs a = (staticReads, fs, false) := by
      simp [runProgram, h1, h2, h3, h4]
    rw [hrun]
    exact ⟨fun _ => ⟨rfl, fun p => by simp [staticReads]⟩, fun _ => rfl,
      fun p hq => by simp [staticReads] at hq⟩
  | some mf =>
  cases hp : parse_args a with
  | none =>
    have hrun : runProgram fs a = (staticReads, fs, false) := by
      simp [runProgram, h1, h2, h3, h4, hp]
    rw [hrun]
    exact ⟨fun _ => ⟨rfl, fun p => by simp [staticReads]⟩, fun _ => rfl,
      fun p hq => by simp [staticReads] at hq⟩
  | some quad =>
  obtain ⟨out, kpath, rpath, rampath⟩ := quad
  cases h5 : fs.readF kpath with
  | none =>
    have hrun : runProgram fs a =
        (staticReads ++ [Event.fileRead kpath], fs, false) := by
      simp [runProgram, h1, h2, h3, h4, hp, h5]
    rw [hrun]
    exact ⟨fun _ => ⟨rfl, fun p => by simp [staticReads]⟩, fun _ => rfl,
      fun p hq => by simp [staticReads] at hq⟩
  | some kd =>
  cases h6 : fs.readF rpath with
  | none =>
    have hrun : runProgram fs a =
        (staticReads ++ [Event.fileRead kpath, Event.fileRead rpath],
          fs, false) := by
      simp [runProgram, h1, h2, h3, h4, hp, h5, h6]
    rw [hrun]
    exact ⟨fun _ => ⟨rfl, fun p => by simp [staticReads]⟩, fun _ => rfl,
      fun p hq => by simp [staticReads] at hq⟩
  | some rd =>
  cases hram : rampath with
  | some rp =>
    cases h7 : fs.readF rp with
    | none =>
      have hrun : runProgram fs a =
          (staticReads ++ [Event.fileRead kpath, Event.fileRead rpath,
            Event.fileRead rp], fs, false) := by
        simp [runProgram, h1, h2, h3, h4, hp, h5, h6, hram, h7]
      rw [hrun]
      exact ⟨fun _ => ⟨rfl, fun p => by simp [staticReads]⟩, fun _ => rfl,
        fun p hq => by simp [staticReads] at hq⟩
    | some dd =>
    cases hbi : buildImage ⟨hd, ud, mh, mf⟩ kd rd dd with
    | none =>
      have hrun : runProgram fs a =
          (staticReads ++ [Event.fileRead kpath, Event.fileRead rpath,
            Event.fileRead rp], fs, false) := by
        simp [runProgram, finishRun, h1, h2, h3, h4, hp, h5, h6, hram, h7, hbi]
      rw [hrun]
      exact ⟨fun _ => ⟨rfl, fun p => by simp [staticReads]⟩, fun _ => rfl,
        fun p hq => by simp [staticReads] at hq⟩
    | some img =>
      have hrun : runProgram fs a =
          ((staticReads ++ [Event.fileRead kpath, Event.fileRead rpath,
            Event.fileRead rp]) ++ [Event.fileWrite out],
            fs.writeF out img, true) := by
        simp [runProgram, finishRun, h1, h2, h3, h4, hp, h5, h6, hram, h7, hbi]
      rw [hrun]
      refine ⟨fun hfalse => by simp at hfalse, fun hex => ?_, fun p hq => ?_⟩
      · obtain ⟨p, hmem, hnone⟩ := hex
        exfalso
        simp [requiredPaths, hp, hram] at hmem
        rcases hmem with rfl | rfl | rfl | rfl | rfl | rfl | rfl <;> simp_all
      · exact write_mem_last _ out p (by simp [staticReads]) hq
  | none =>
    cases hbi : buildImage ⟨hd, ud, mh, mf⟩ kd rd kd with
    | none =>
      have hrun : runProgram fs a =
          (staticReads ++ [Event.fileRead kpath, Event.fileRead rpath],
            fs, false) := by
        simp [runProgram, finishRun, h1, h2, h3, h4, hp, h5, h6, hram, hbi]
      rw [hrun]
      exact ⟨fun _ => ⟨rfl, fun p => by simp [staticReads]⟩, fun _ => rfl,
        fun p hq => by simp [staticReads] at hq⟩
    | some img =>
      have hrun : runProgram fs a =
          ((staticReads ++ [Event.fileRead kpath, Event.fileRead rpath]) ++
            [Event.fileWrite out], fs.writeF out img, true) := by
        simp [runProgram, finishRun, h1, h2, h3, h4, hp, h5, h6, hram, hbi]
      rw [hrun]
      refine ⟨fun hfalse => by simp at hfalse, fun hex => ?_, fun p hq => ?_⟩
      · obtain ⟨p, hmem, hnone⟩ := hex
        exfalso
        simp [requiredPaths, hp, hram] at hmem
        rcases hmem with rfl | rfl | rfl | rfl | rfl | rfl <;> simp_all
      · exact write_mem_last _ out p (by simp [staticReads]) hq

theorem C8_failure_atomicity_witness :
    (runProgram [] ⟨"o", some "k", some "r", none⟩).2.2 = false ∧
    (runProgram [] ⟨"o", some "k", some "r", none⟩).2.1 = [] := by
  have h := C8_failure_atomicity [] ⟨"o", some "k", some "r", none⟩
  have hfail := h.2.1 ⟨headerPath, by decide, by decide⟩
  exact ⟨hfail, (h.1 hfail).1⟩

/-! ### Claim C9: what happens before a missing-argument error -/

theorem C9_counterexample :
    (runProgram [(headerPath, []), (ubootPath, []), (mdHeaderPath, []),
      (mdFooterPath, [])] ⟨"out", none, some "r", none⟩).2.2 = false ∧
    Event.fileRead headerPath ∈
      (runProgram [(headerPath, []), (ubootPath, []), (mdHeaderPath, []),
        (mdFooterPath, [])] ⟨"out", none, some "r", none⟩).1 := by decide

/-- C9 (amended): with `--kernel` or `--rootfs` absent the run aborts during
argument parsing with the file system untouched and without reading any
caller-supplied file — but the four static blobs are read (at module import
time) before the missing-argument error is reported, so the trace up to the
abort is a prefix of the four static reads. -/
theorem C9_parse_abort (fs : FS) (a : Args)
    (h : a.kernel = none ∨ a.rootfs = none) :
    (runProgram fs a).2.2 = false ∧ (runProgram fs a).2.1 = fs ∧
    (runProgram fs a).1 <+: staticReads := by
  have hparse : parse_args a = none := by
    unfold parse_args
    rcases h with h | h <;> rw [h] <;> cases a.kernel <;> cases a.rootfs <;>
      rfl
  cases h1 : fs.readF headerPath with
  | none =>
    have hrun : runProgram fs a = ([Event.fileRead headerPath], fs, false) :=
      by simp [runProgram, h1]
    rw [hrun]
    exact ⟨rfl, rfl, ⟨[Event.fileRead ubootPath, Event.fileRead mdHeaderPath,
      Event.fileRead mdFooterPath], rfl⟩⟩
  | some b1 =>
  cases h2 : fs.readF ubootPath with
  | none =>
    have hrun : runProgram fs a =
        ([Event.fileRead headerPath, Event.fileRead ubootPath], fs, false) :=
      by simp [runProgram, h1, h2]
    rw [hrun]
    exact ⟨rfl, rfl, ⟨[Event.fileRead mdHeaderPath,
      Event.fileRead mdFooterPath], rfl⟩⟩
  | some b2 =>
  cases h3 : fs.readF mdHeaderPath with
  | none =>
    have hrun : runProgram fs a = ([Event.fileRead headerPath,
        Event.fileRead ubootPath, Event.fileRead mdHeaderPath], fs, false) :=
      by simp [runProgram, h1, h2, h3]
    rw [hrun]
    exact ⟨rfl, rfl, ⟨[Event.fileRead mdFooterPath], rfl⟩⟩
  | some b3 =>
  cases h4 : fs.readF mdFooterPath with
  | none =>
    have hrun : runProgram fs a = (staticReads, fs, false) := by
      simp [runProgram, h1, h2, h3, h4]
    rw [hrun]
    exact ⟨rfl, rfl, ⟨[], by simp⟩⟩
  | some b4 =>
  have hrun : runProgram fs a = (staticReads, fs, false) := by
    simp [runProgram, h1, h2, h3, h4, hparse]
  rw [hrun]
  exact ⟨rfl, rfl, ⟨[], by simp⟩⟩

theorem C9_parse_abort_witness :
    (runProgram [] ⟨"o", none, some "r", none⟩).2.2 = false ∧
    (runProgram [] ⟨"o", none, some "r", none⟩).1 <+: staticReads :=
  ⟨(C9_parse_abort [] ⟨"o", none, some "r", none⟩ (Or.inl rfl)).1,
    (C9_parse_abort [] ⟨"o", none, some "r", none⟩ (Or.inl rfl)).2.2⟩

end FactoryImage
